import Mathlib

/-!
Shallow embedding of the NeuroSpire-RL decision/control layer.

Numbers are modelled as rationals.  Python dictionaries with optional keys
are modelled as structures of Option fields, with Option.getD playing the
role of dict.get with a default.  Engine mutators that may reject a call
are modelled as Except-valued functions; Except.error stands for a Python
exception.  A try/except block in the source corresponds to a match that
absorbs the error; an engine call outside any try/except corresponds to a
monadic bind that propagates the error.
-/

/-- Monster record of the observation-property bundle (src/observation.py).
Every key may be absent, mirroring dict.get defaults. -/
structure MonsterP where
  max_hp : Option ℚ
  cur_hp : Option ℚ
  intent_id : Option ℚ
  intent_dmg : Option ℚ
  intent_hits : Option ℚ
  is_alive : Option Bool
deriving DecidableEq

/-- Hand-card record of the observation-property bundle (src/observation.py). -/
structure CardP where
  id : Option ℚ
  cost : Option ℚ
  upgraded : Option ℚ
deriving DecidableEq

/-- The property bundle returned by gc.get_observation_props (src/observation.py). -/
structure ObsProps where
  max_hp : Option ℚ
  cur_hp : Option ℚ
  block : Option ℚ
  energy : Option ℚ
  strength : Option ℚ
  dexterity : Option ℚ
  vulnerable : Option ℚ
  weak : Option ℚ
  frail : Option ℚ
  artifact : Option ℚ
  monsters : Option (List MonsterP)
  hand : Option (List CardP)
  draw_pile_size : Option ℚ
  discard_pile_size : Option ℚ
  exhaust_pile_size : Option ℚ
  floor_num : Option ℚ
  gold : Option ℚ
  has_corruption : Option Bool
  has_dark_embrace : Option Bool
  has_dead_branch : Option Bool
deriving DecidableEq

/-- The all-absent property bundle: every dict.get falls back to its default. -/
def ObsProps.empty : ObsProps :=
  ⟨none, none, none, none, none, none, none, none, none, none,
   none, none, none, none, none, none, none, none, none, none⟩

/-- The five features encoded for one present monster slot
(src/observation.py lines 50-68): hp ratio with the max-hp denominator
defaulted to 1 and forced positive, intent id, intent damage, intent hit
count, and the alive flag as 1.0/0.0. -/
def encodeMonster (m : MonsterP) : List ℚ :=
  let m_max0 := m.max_hp.getD 1
  let m_max := if m_max0 ≤ 0 then 1 else m_max0
  [m.cur_hp.getD 0 / m_max,
   m.intent_id.getD 0,
   m.intent_dmg.getD 0,
   m.intent_hits.getD 0,
   if m.is_alive.getD false then 1 else 0]

/-- The three features encoded for one present hand slot
(src/observation.py lines 75-85): card id, cost, upgraded flag. -/
def encodeCard (c : CardP) : List ℚ :=
  [c.id.getD 0, c.cost.getD 0, c.upgraded.getD 0]

/-- One monster slot: the encoded features when a monster is present at the
index, otherwise the five-zero padding (src/observation.py lines 50-71). -/
def monsterSlot (o : Option MonsterP) : List ℚ :=
  match o with
  | some m => encodeMonster m
  | none => [0, 0, 0, 0, 0]

/-- Five monster slots, padded with exact zeros when fewer monsters exist
(src/observation.py lines 50-71). -/
def monsterSlots (ms : List MonsterP) : List ℚ :=
  (List.range 5).flatMap (fun i => monsterSlot (ms.get? i))

/-- One hand slot: the encoded features when a card is present at the index,
otherwise the three-zero padding (src/observation.py lines 75-88). -/
def handSlot (o : Option CardP) : List ℚ :=
  match o with
  | some c => encodeCard c
  | none => [0, 0, 0]

/-- Ten hand slots, padded with exact zeros when the hand is shorter
(src/observation.py lines 75-88). -/
def handSlots (cs : List CardP) : List ℚ :=
  (List.range 10).flatMap (fun i => handSlot (cs.get? i))

/-- The nine player-state features (src/observation.py lines 30-46): hp
ratio with the max-hp denominator defaulted to 1 and forced positive, then
block, energy and the six status magnitudes raw. -/
def playerFeatures (data : ObsProps) : List ℚ :=
  let max_hp0 := data.max_hp.getD 1
  let max_hp := if max_hp0 ≤ 0 then 1 else max_hp0
  [data.cur_hp.getD 0 / max_hp,
   data.block.getD 0,
   data.energy.getD 0,
   data.strength.getD 0,
   data.dexterity.getD 0,
   data.vulnerable.getD 0,
   data.weak.getD 0,
   data.frail.getD 0,
   data.artifact.getD 0]

/-- The eight global features (src/observation.py lines 90-105): pile sizes
over 50, floor over 50, gold over 1000, three boolean relic/power flags. -/
def globalFeatures (data : ObsProps) : List ℚ :=
  [data.draw_pile_size.getD 0 / 50,
   data.discard_pile_size.getD 0 / 50,
   data.exhaust_pile_size.getD 0 / 50,
   data.floor_num.getD 0 / 50,
   data.gold.getD 0 / 1000,
   if data.has_corruption.getD false then 1 else 0,
   if data.has_dark_embrace.getD false then 1 else 0,
   if data.has_dead_branch.getD false then 1 else 0]

/-- Embedding of get_observation (src/observation.py).  The input none models
gc.get_observation_props raising, in which case the source returns the
all-zero 72-vector.  Otherwise the 72 features are laid out as documented:
[0..8] player state, [9..33] five monster slots of five features,
[34..63] ten hand slots of three features, [64..71] global features. -/
def get_observation (props : Option ObsProps) : List ℚ :=
  match props with
  | none => List.replicate 72 0
  | some data =>
    playerFeatures data
     ++ monsterSlots (data.monsters.getD [])
     ++ handSlots (data.hand.getD [])
     ++ globalFeatures data

/-- Indexing a vector as the numpy code does, total with default 0 for
out-of-range indices (all uses in the source stay within the 72 bounds). -/
def nth (v : List ℚ) (i : Nat) : ℚ := v.getD i 0

theorem monsterSlot_length (o : Option MonsterP) : (monsterSlot o).length = 5 := by
  rcases o with _ | m <;> simp [monsterSlot, encodeMonster]

theorem handSlot_length (o : Option CardP) : (handSlot o).length = 3 := by
  rcases o with _ | c <;> simp [handSlot, encodeCard]

theorem monsterSlots_length (ms : List MonsterP) : (monsterSlots ms).length = 25 := by
  simp [monsterSlots, List.range_succ, monsterSlot_length]

theorem handSlots_length (cs : List CardP) : (handSlots cs).length = 30 := by
  simp [handSlots, List.range_succ, handSlot_length]

theorem get_observation_length (p : Option ObsProps) :
    (get_observation p).length = 72 := by
  rcases p with _ | d
  · simp [get_observation]
  · simp [get_observation, playerFeatures, globalFeatures, monsterSlots_length, handSlots_length]

/-- Number of alive monsters read from a vector, as the comprehension
sum([1 for i in range(5) if obs[9 + i*5 + 4] > 0.5]) in src/reward.py. -/
def aliveCount (v : List ℚ) : Nat :=
  ((List.range 5).filter (fun i => nth v (9 + i * 5 + 4) > 1/2)).length

/-- Summed monster hp ratios over the five slots (src/reward.py lines 95-96). -/
def monsterHpSum (v : List ℚ) : ℚ :=
  ((List.range 5).map (fun i => nth v (9 + i * 5))).sum

/-- One conditional reward contribution: under cond the source does
reward += x and info[k] = x, otherwise leaves both unchanged
(the repeated pattern of src/reward.py). -/
def addIf (cond : Prop) [Decidable cond] (a : ℚ × List (String × ℚ))
    (k : String) (x : ℚ) : ℚ × List (String × ℚ) :=
  if cond then (a.1 + x, a.2 ++ [(k, x)]) else a

/-- Embedding of calculate_rational_reward (src/reward.py).  The gc argument
of the source is never read by the body, so it is dropped here.  The info
dict is modelled as an association list in insertion order; every key is
written at most once, in the order of the source.  The seven components
accumulate sequentially into the running (reward, info) pair.  Note that the
deck-thinning component reads index 69 of the vectors, exactly as the
source does. -/
def calculate_rational_reward (obs_prev obs_curr : List ℚ) :
    ℚ × List (String × ℚ) :=
  let hp_diff := nth obs_curr 0 - nth obs_prev 0
  let str_prev := nth obs_prev 3
  let str_curr := nth obs_curr 3
  let alive_prev := aliveCount obs_prev
  let alive_curr := aliveCount obs_curr
  let hp_drop := monsterHpSum obs_prev - monsterHpSum obs_curr
  let gold_prev := nth obs_prev 68
  let gold_curr := nth obs_curr 68
  let floor_prev := nth obs_prev 67
  let floor_curr := nth obs_curr 67
  let deck_prev := nth obs_prev 69
  let deck_curr := nth obs_curr 69
  let a1 := addIf (hp_diff < 0) (0, []) ("hp_loss") (hp_diff * 5)
  let a2 := addIf (str_curr > str_prev) a1 ("strength_gain")
              ((str_curr - str_prev) * (1/5))
  let a3 := addIf (alive_curr < alive_prev) a2 ("kill")
              (((alive_prev - alive_curr : ℕ) : ℚ) * 1)
  let a4 := addIf (hp_drop > 0) a3 ("damage") (hp_drop * 2)
  let a5 := addIf (gold_curr > gold_prev) a4 ("gold")
              ((gold_curr - gold_prev) * 10)
  let a6 := addIf (floor_curr > floor_prev) a5 ("floor_climb")
              ((floor_curr - floor_prev) * 50 * 1)
  let a7 := addIf (deck_curr < deck_prev) a6 ("deck_thin")
              ((deck_prev - deck_curr) * 25)
  a7

/-- C10: the scalar reward returned by calculate_rational_reward equals the
sum of the signed magnitudes recorded in the returned breakdown list. -/
theorem addIf_sum (cond : Prop) [Decidable cond] (a : ℚ × List (String × ℚ))
    (k : String) (x : ℚ) (h : a.1 = (a.2.map Prod.snd).sum) :
    (addIf cond a k x).1 = ((addIf cond a k x).2.map Prod.snd).sum := by
  by_cases hc : cond <;> simp [addIf, hc, h]

theorem reward_total_eq_breakdown_sum (p c : List ℚ) :
    (calculate_rational_reward p c).1 =
      ((calculate_rational_reward p c).2.map Prod.snd).sum := by
  simp only [calculate_rational_reward]
  apply addIf_sum
  apply addIf_sum
  apply addIf_sum
  apply addIf_sum
  apply addIf_sum
  apply addIf_sum
  apply addIf_sum
  simp

/-- A property bundle whose only set field is the corruption relic flag. -/
def propsWithCorruption : ObsProps :=
  { ObsProps.empty with has_corruption := some true }

/-- A property bundle whose only set field is the draw pile size. -/
def propsWithDraw (n : ℚ) : ObsProps :=
  { ObsProps.empty with draw_pile_size := some n }

theorem obs_empty_eq : get_observation (some ObsProps.empty) = List.replicate 72 0 := by
  simp [get_observation, playerFeatures, globalFeatures, ObsProps.empty, monsterSlots, handSlots, monsterSlot,
    handSlot, List.range_succ]

theorem obs_corr_eq : get_observation (some propsWithCorruption) =
    List.replicate 69 0 ++ [1, 0, 0] := by
  simp [get_observation, playerFeatures, globalFeatures, propsWithCorruption, ObsProps.empty, monsterSlots,
    handSlots, monsterSlot, handSlot, List.range_succ]

theorem obs_draw_eq (n : ℚ) : get_observation (some (propsWithDraw n)) =
    List.replicate 64 0 ++ [n / 50] ++ List.replicate 7 0 := by
  simp [get_observation, playerFeatures, globalFeatures, propsWithDraw, ObsProps.empty, monsterSlots,
    handSlots, monsterSlot, handSlot, List.range_succ]

theorem corr_nth69 : nth (get_observation (some propsWithCorruption)) 69 = 1 := by
  rw [obs_corr_eq]
  norm_num [nth, List.getD, List.replicate]

theorem empty_nth69 : nth (get_observation (some ObsProps.empty)) 69 = 0 := by
  rw [obs_empty_eq]
  norm_num [nth, List.getD, List.replicate]

theorem corr_reward_eval :
    calculate_rational_reward (get_observation (some propsWithCorruption))
      (get_observation (some ObsProps.empty)) = (25, [(("deck_thin"), 25)]) := by
  rw [obs_corr_eq, obs_empty_eq]
  norm_num [calculate_rational_reward, addIf, aliveCount, monsterHpSum, nth,
    List.range_succ, List.getD, List.replicate]

theorem draw_reward_eval :
    calculate_rational_reward (get_observation (some (propsWithDraw 10)))
      (get_observation (some (propsWithDraw 5))) = (0, []) := by
  rw [obs_draw_eq, obs_draw_eq]
  norm_num [calculate_rational_reward, addIf, aliveCount, monsterHpSum, nth,
    List.range_succ, List.getD, List.replicate]

/-- C2: the deck-thinning component of the reward reads index 69, but the
encoder stores the boolean has_corruption relic flag there; losing the
Corruption power (flag 1 to 0, no pile change) is rewarded as deck thinning
with +25, while an actual draw-pile decrease (index 64) triggers nothing. -/
theorem deck_thin_reads_corruption_flag :
    nth (get_observation (some propsWithCorruption)) 69 = 1 ∧
    nth (get_observation (some ObsProps.empty)) 69 = 0 ∧
    calculate_rational_reward (get_observation (some propsWithCorruption))
      (get_observation (some ObsProps.empty)) = (25, [(("deck_thin"), 25)]) ∧
    calculate_rational_reward (get_observation (some (propsWithDraw 10)))
      (get_observation (some (propsWithDraw 5))) = (0, []) :=
  ⟨corr_nth69, empty_nth69, corr_reward_eval, draw_reward_eval⟩

/-- C8: the encoder is total.  Its length is 72 on every input; the input
none (gc.get_observation_props raised) yields the all-zero vector; the
bundle with every field missing yields the all-zero vector through the
per-field defaults; and with max_hp present but 0 the guarded denominator 1
is used, so the hp-ratio feature is cur_hp / 1 = cur_hp and no division
error can arise. -/
theorem get_observation_total :
    (∀ p, (get_observation p).length = 72) ∧
    get_observation none = List.replicate 72 0 ∧
    get_observation (some ObsProps.empty) = List.replicate 72 0 ∧
    (∀ c : ℚ, nth (get_observation (some { ObsProps.empty with
        max_hp := some 0, cur_hp := some c })) 0 = c) :=
  ⟨get_observation_length, by simp [get_observation], obs_empty_eq,
   by intro c; simp [get_observation, playerFeatures, ObsProps.empty, nth]⟩

/-- Hand-card record as read by the environment: only the costForTurn key is
consulted, with default 99 when missing (src/sts_env.py line 161). -/
structure CardRec where
  costForTurn : Option ℚ
deriving DecidableEq

/-- Screen constants of StsEnv.__init__ (src/sts_env.py lines 53-62). -/
def SCREEN_INVALID : Int := 0

def SCREEN_EVENT : Int := 1

def SCREEN_REWARDS : Int := 2

def SCREEN_BOSS_RELIC : Int := 3

def SCREEN_CARD_SELECT : Int := 4

def SCREEN_MAP : Int := 5

def SCREEN_TREASURE : Int := 6

def SCREEN_REST : Int := 7

def SCREEN_SHOP : Int := 8

def SCREEN_BATTLE : Int := 9

/-- Battle-screen slot validity of StsEnv.action_masks (src/sts_env.py
lines 266-273): slot i of 0..9 is true when a card exists in hand slot i
and its costForTurn (default 99) is at most the energy read from index 2 of
the previous observation. -/
def battleSlot (hand : List CardRec) (obs_prev : List ℚ) (i : Nat) : Bool :=
  match hand.get? i with
  | some card => decide (card.costForTurn.getD 99 ≤ nth obs_prev 2)
  | none => false

/-- Embedding of StsEnv.action_masks (src/sts_env.py lines 247-289).  The
mask starts as np.zeros(15); in the Battle screen the source loop sets slots 0..9
through battleSlot and slot 10 to true; in every other screen only slot 11
is set to true.  The mask is written out entry by entry. -/
def action_masks (state : Int) (hand : List CardRec) (obs_prev : List ℚ) :
    List Bool :=
  if state = SCREEN_BATTLE then
    [battleSlot hand obs_prev 0, battleSlot hand obs_prev 1,
     battleSlot hand obs_prev 2, battleSlot hand obs_prev 3,
     battleSlot hand obs_prev 4, battleSlot hand obs_prev 5,
     battleSlot hand obs_prev 6, battleSlot hand obs_prev 7,
     battleSlot hand obs_prev 8, battleSlot hand obs_prev 9,
     true, false, false, false, false]
  else
    [false, false, false, false, false, false, false, false, false, false,
     false, true, false, false, false]

theorem battleSlot_true_iff (hand : List CardRec) (obs : List ℚ) (i : Nat) :
    battleSlot hand obs i = true ↔
      ∃ c, hand.get? i = some c ∧ c.costForTurn.getD 99 ≤ nth obs 2 := by
  cases h : hand.get? i <;>
    · rw [List.get?_eq_getElem?] at h
      simp [battleSlot, h]

/-- C4: in the Battle screen, mask slot i of 0..9 is true exactly when hand
slot i holds a card whose cost is at most the energy at observation index 2;
slot 10 is true and slots 11..14 are false.  In every non-Battle screen the
mask is true exactly at index 11. -/
theorem action_masks_spec (state : Int) (hand : List CardRec) (obs : List ℚ) :
    (∀ i : Fin 10,
      ((action_masks SCREEN_BATTLE hand obs).getD (i : Nat) false = true ↔
        ∃ c, hand.get? (i : Nat) = some c ∧
          c.costForTurn.getD 99 ≤ nth obs 2)) ∧
    (action_masks SCREEN_BATTLE hand obs).getD 10 false = true ∧
    (∀ j : Fin 15, 11 ≤ (j : Nat) →
      (action_masks SCREEN_BATTLE hand obs).getD (j : Nat) false = false) ∧
    (state ≠ SCREEN_BATTLE → ∀ j : Fin 15,
      ((action_masks state hand obs).getD (j : Nat) false = true ↔
        (j : Nat) = 11)) := by
  refine ⟨?_, ?_, ?_, ?_⟩
  · intro i
    fin_cases i <;>
      simpa [action_masks, SCREEN_BATTLE, List.getD] using
        battleSlot_true_iff hand obs _
  · simp [action_masks, SCREEN_BATTLE, List.getD]
  · intro j hj
    fin_cases j <;> simp_all [action_masks, SCREEN_BATTLE, List.getD]
  · intro hst j
    fin_cases j <;> simp_all [action_masks, SCREEN_BATTLE, List.getD]

/-- C9: the mask always has 15 entries and at least one valid action: index
10 is true in the Battle screen and index 11 is true in every other screen,
so the policy is never left without a valid action. -/
theorem action_masks_never_empty (state : Int) (hand : List CardRec)
    (obs : List ℚ) :
    (action_masks state hand obs).length = 15 ∧
    (action_masks state hand obs).getD
      (if state = SCREEN_BATTLE then 10 else 11) false = true ∧
    true ∈ action_masks state hand obs := by
  by_cases h : state = SCREEN_BATTLE <;>
    simp [action_masks, h, List.getD, List.mem_append]

/-- The bound stated by the spec for observation entries: every entry lies
in the interval [-5, 500] (the declared observation-space bounds). -/
def obsEntriesIn (v : List ℚ) : Prop := ∀ x ∈ v, -5 ≤ x ∧ x ≤ 500

/-- A property bundle whose only set field is a block of 1000. -/
def propsBigBlock : ObsProps := { ObsProps.empty with block := some 1000 }

theorem obs_block_eq : get_observation (some propsBigBlock) =
    0 :: 1000 :: List.replicate 70 0 := by
  simp [get_observation, playerFeatures, globalFeatures, propsBigBlock, ObsProps.empty, monsterSlots,
    handSlots, monsterSlot, handSlot, List.range_succ]

/-- C5 counterexample: the encoder never clamps, so a snapshot reporting
block = 1000 produces an observation entry 1000 outside [-5, 500]. -/
theorem obs_bounds_counterexample :
    ¬ obsEntriesIn (get_observation (some propsBigBlock)) := by
  rw [obs_block_eq]
  intro h
  have := h 1000 (by simp)
  norm_num at this

/-- A field bound 0 ≤ value ≤ hi, with the missing-field default 0. -/
def qBnd (o : Option ℚ) (hi : ℚ) : Prop := 0 ≤ o.getD 0 ∧ o.getD 0 ≤ hi

/-- Natural engine ranges for a monster record: non-negative hp below the
guarded max-hp denominator, and intent features in [0, 500]. -/
def MonsterP.bounded (m : MonsterP) : Prop :=
  0 ≤ m.cur_hp.getD 0 ∧
  m.cur_hp.getD 0 ≤ (if m.max_hp.getD 1 ≤ 0 then 1 else m.max_hp.getD 1) ∧
  qBnd m.intent_id 500 ∧ qBnd m.intent_dmg 500 ∧ qBnd m.intent_hits 500

/-- Natural engine ranges for a hand-card record. -/
def CardP.bounded (c : CardP) : Prop :=
  qBnd c.id 500 ∧ qBnd c.cost 500 ∧ qBnd c.upgraded 500

/-- Natural engine ranges for the whole property bundle: hp below the guarded
max-hp denominator, raw stats in [0, 500], pile sizes and floor at most
25000 (so the /50 features stay at most 500), gold at most 500000 (so the
/1000 feature stays at most 500). -/
def ObsProps.bounded (d : ObsProps) : Prop :=
  0 ≤ d.cur_hp.getD 0 ∧
  d.cur_hp.getD 0 ≤ (if d.max_hp.getD 1 ≤ 0 then 1 else d.max_hp.getD 1) ∧
  qBnd d.block 500 ∧ qBnd d.energy 500 ∧ qBnd d.strength 500 ∧
  qBnd d.dexterity 500 ∧ qBnd d.vulnerable 500 ∧ qBnd d.weak 500 ∧
  qBnd d.frail 500 ∧ qBnd d.artifact 500 ∧
  (∀ m ∈ d.monsters.getD [], m.bounded) ∧
  (∀ c ∈ d.hand.getD [], c.bounded) ∧
  qBnd d.draw_pile_size 25000 ∧ qBnd d.discard_pile_size 25000 ∧
  qBnd d.exhaust_pile_size 25000 ∧ qBnd d.floor_num 25000 ∧
  qBnd d.gold 500000

theorem ratio_bound (c m0 : ℚ) (h0 : 0 ≤ c)
    (h1 : c ≤ (if m0 ≤ 0 then 1 else m0)) :
    -5 ≤ c / (if m0 ≤ 0 then 1 else m0) ∧
      c / (if m0 ≤ 0 then 1 else m0) ≤ 500 := by
  have hmpos : 0 < (if m0 ≤ 0 then 1 else m0) := by
    by_cases h : m0 ≤ 0 <;> simp [h]
    linarith
  have hnn : 0 ≤ c / (if m0 ≤ 0 then 1 else m0) := div_nonneg h0 hmpos.le
  have hle : c / (if m0 ≤ 0 then 1 else m0) ≤ 1 := (div_le_one hmpos).2 h1
  constructor <;> linarith

theorem encodeMonster_bounds (m : MonsterP) (hb : m.bounded) :
    ∀ x ∈ encodeMonster m, -5 ≤ x ∧ x ≤ 500 := by
  obtain ⟨h0, h1, hid, hdmg, hhits⟩ := hb
  intro x hx
  simp [encodeMonster] at hx
  rcases hx with h | h | h | h | h <;> subst h
  · exact ratio_bound _ _ h0 h1
  · obtain ⟨a, b⟩ := hid; constructor <;> linarith
  · obtain ⟨a, b⟩ := hdmg; constructor <;> linarith
  · obtain ⟨a, b⟩ := hhits; constructor <;> linarith
  · split_ifs <;> norm_num

theorem encodeCard_bounds (c : CardP) (hb : c.bounded) :
    ∀ x ∈ encodeCard c, -5 ≤ x ∧ x ≤ 500 := by
  obtain ⟨hid, hc, hu⟩ := hb
  intro x hx
  simp [encodeCard] at hx
  rcases hx with h | h | h <;> subst h
  · obtain ⟨a, b⟩ := hid; constructor <;> linarith
  · obtain ⟨a, b⟩ := hc; constructor <;> linarith
  · obtain ⟨a, b⟩ := hu; constructor <;> linarith

theorem monsterSlots_bounds (ms : List MonsterP)
    (hb : ∀ m ∈ ms, m.bounded) :
    ∀ x ∈ monsterSlots ms, -5 ≤ x ∧ x ≤ 500 := by
  intro x hx
  simp [monsterSlots] at hx
  obtain ⟨i, _, hmem⟩ := hx
  cases h : ms.get? i with
  | none =>
      rw [List.get?_eq_getElem?] at h
      rw [h] at hmem
      simp [monsterSlot] at hmem
      subst hmem
      norm_num
  | some m =>
      rw [List.get?_eq_getElem?] at h
      rw [h] at hmem
      exact encodeMonster_bounds m (hb m (List.getElem?_mem h)) x hmem

theorem handSlots_bounds (cs : List CardP)
    (hb : ∀ c ∈ cs, c.bounded) :
    ∀ x ∈ handSlots cs, -5 ≤ x ∧ x ≤ 500 := by
  intro x hx
  simp [handSlots] at hx
  obtain ⟨i, _, hmem⟩ := hx
  cases h : cs.get? i with
  | none =>
      rw [List.get?_eq_getElem?] at h
      rw [h] at hmem
      simp [handSlot] at hmem
      subst hmem
      norm_num
  | some c =>
      rw [List.get?_eq_getElem?] at h
      rw [h] at hmem
      exact encodeCard_bounds c (hb c (List.getElem?_mem h)) x hmem

theorem div_feature_bound (o : Option ℚ) (hi z : ℚ) (hz : 0 < z)
    (hb : qBnd o hi) : -5 ≤ o.getD 0 / z ∧ o.getD 0 / z ≤ hi / z := by
  obtain ⟨a, b⟩ := hb
  have hnn : 0 ≤ o.getD 0 / z := div_nonneg a hz.le
  have hle : o.getD 0 / z ≤ hi / z := (div_le_div_iff_of_pos_right hz).mpr b
  constructor <;> linarith

/-- C5 amended: unclamped, the bound holds only for snapshots whose raw
fields lie in the natural engine ranges of ObsProps.bounded; then every
entry of the encoded observation lies in [-5, 500]. -/
theorem obs_entries_bounded (d : ObsProps) (hb : d.bounded) :
    obsEntriesIn (get_observation (some d)) := by
  obtain ⟨hcur, hmax, hblock, henergy, hstr, hdex, hvuln, hweak, hfrail,
    hart, hmon, hhand, hdraw, hdisc, hexh, hfloor, hgold⟩ := hb
  intro x hx
  simp only [get_observation, List.mem_append] at hx
  rcases hx with ((h | h) | h) | h
  · simp only [playerFeatures, List.mem_cons, List.not_mem_nil, or_false] at h
    rcases h with h | h | h | h | h | h | h | h | h <;> subst h
    · exact ratio_bound _ _ hcur hmax
    · obtain ⟨a, b⟩ := hblock; constructor <;> linarith
    · obtain ⟨a, b⟩ := henergy; constructor <;> linarith
    · obtain ⟨a, b⟩ := hstr; constructor <;> linarith
    · obtain ⟨a, b⟩ := hdex; constructor <;> linarith
    · obtain ⟨a, b⟩ := hvuln; constructor <;> linarith
    · obtain ⟨a, b⟩ := hweak; constructor <;> linarith
    · obtain ⟨a, b⟩ := hfrail; constructor <;> linarith
    · obtain ⟨a, b⟩ := hart; constructor <;> linarith
  · exact monsterSlots_bounds _ hmon x h
  · exact handSlots_bounds _ hhand x h
  · simp only [globalFeatures, List.mem_cons, List.not_mem_nil, or_false] at h
    rcases h with rfl | rfl | rfl | rfl | rfl | rfl | rfl | rfl
    · have := div_feature_bound d.draw_pile_size 25000 50 (by norm_num) hdraw
      exact ⟨this.1, by linarith [this.2]⟩
    · have := div_feature_bound d.discard_pile_size 25000 50 (by norm_num) hdisc
      exact ⟨this.1, by linarith [this.2]⟩
    · have := div_feature_bound d.exhaust_pile_size 25000 50 (by norm_num) hexh
      exact ⟨this.1, by linarith [this.2]⟩
    · have := div_feature_bound d.floor_num 25000 50 (by norm_num) hfloor
      exact ⟨this.1, by linarith [this.2]⟩
    · have := div_feature_bound d.gold 500000 1000 (by norm_num) hgold
      exact ⟨this.1, by linarith [this.2]⟩
    · split_ifs <;> norm_num
    · split_ifs <;> norm_num
    · split_ifs <;> norm_num

/-- A realistic bounded snapshot used as the witness input. -/
def wProps : ObsProps :=
  { max_hp := some 80, cur_hp := some 60, block := some 5, energy := some 3,
    strength := some 2, dexterity := some 0, vulnerable := some 0,
    weak := some 1, frail := some 0, artifact := some 0,
    monsters := some [⟨some 40, some 20, some 5, some 10, some 2, some true⟩],
    hand := some [⟨some 7, some 2, some 1⟩],
    draw_pile_size := some 10, discard_pile_size := some 4,
    exhaust_pile_size := some 1, floor_num := some 6, gold := some 99,
    has_corruption := some true, has_dark_embrace := none,
    has_dead_branch := none }

theorem obs_entries_bounded_witness :
    obsEntriesIn (get_observation (some wProps)) :=
  obs_entries_bounded wProps (by
    norm_num [ObsProps.bounded, MonsterP.bounded, CardP.bounded, qBnd, wProps])

/-- Map node of get_map_info (src/map_evaluator.py): x coordinate, floor y,
room type enum, and the child x coordinates on floor y+1. -/
structure MapNode where
  x : Int
  y : Nat
  room_type : Nat
  children : List Int
deriving DecidableEq

/-- The map snapshot of gc.get_map_info: the floors (each a list of nodes)
and the current position. -/
structure MapInfo where
  nodes : List (List MapNode)
  current_x : Int
  current_y : Int
deriving DecidableEq

/-- The player stats read live from gc by MapEvaluator._score_node. -/
structure PlayerStats where
  cur_hp : ℚ
  max_hp : ℚ
  gold : ℚ
deriving DecidableEq

/-- Room type enums of MapEvaluator.__init__ (src/map_evaluator.py 13-19). -/
def ROOM_SHOP : Nat := 0

def ROOM_REST : Nat := 1

def ROOM_EVENT : Nat := 2

def ROOM_ELITE : Nat := 3

def ROOM_MONSTER : Nat := 4

def ROOM_TREASURE : Nat := 5

def ROOM_BOSS : Nat := 6

/-- Embedding of MapEvaluator._score_node (src/map_evaluator.py 176-219).
The weights are recomputed from the live player stats on every call:
panic mode below hp ratio 0.3, cautious mode below 0.5, shop bonus above
250 gold.  The source divides cur_hp by max_hp unguarded; the embedding
uses total rational division, and every theorem below is stated with
max_hp positive. -/
def score_node (st : PlayerStats) (node : MapNode) : ℚ :=
  let hp_frac := st.cur_hp / st.max_hp
  let w_elite : ℚ :=
    if hp_frac < 3/10 then -5 else if hp_frac < 1/2 then 0 else 5
  let w_rest : ℚ :=
    if hp_frac < 3/10 then 8 else if hp_frac < 1/2 then 4 else 2
  let w_monster : ℚ := if hp_frac < 3/10 then -2 else -(1/2)
  let w_shop0 : ℚ := if hp_frac < 3/10 then 3 else 1
  let w_shop : ℚ := if st.gold > 250 then w_shop0 + 3 else w_shop0
  let w_event : ℚ := 1/2
  if node.room_type = ROOM_ELITE then w_elite
  else if node.room_type = ROOM_REST then w_rest
  else if node.room_type = ROOM_SHOP then w_shop
  else if node.room_type = ROOM_MONSTER then w_monster
  else if node.room_type = ROOM_EVENT then w_event
  else if node.room_type = ROOM_TREASURE then 2
  else 0

/-- The memo dictionary self._memo keyed by (x, y), modelled as an
association list whose lookup returns the most recent binding. -/
abbrev Memo : Type := List ((Int × Nat) × ℚ)

/-- Dictionary lookup in the memo (the most recent binding wins, matching
assignment into a Python dict). -/
def memoLookup : List ((Int × Nat) × ℚ) → (Int × Nat) → Option ℚ
  | [], _ => none
  | e :: rest, k => if e.1 = k then some e.2 else memoLookup rest k

/-- First node with the given x on a floor, as the break-on-first-match
search loops of src/map_evaluator.py. -/
def findNode : List MapNode → Int → Option MapNode
  | [], _ => none
  | n :: rest, x => if n.x = x then some n else findNode rest x

/-- Every node with the given x on a floor, in order: the child-collection
inner loop of evaluate_path has no break and appends all matches
(src/map_evaluator.py 59-62). -/
def nodesWithX : List MapNode → Int → List MapNode
  | [], _ => []
  | n :: rest, x =>
    if n.x = x then n :: nodesWithX rest x else nodesWithX rest x

/-- Embedding of MapEvaluator._get_max_future_score (src/map_evaluator.py
129-174), threading the mutated self._memo explicitly.  The source result
is cached under (x, y) before returning, except on the three early returns
(missing node, y at the boss boundary 14, no children), which the source
leaves uncached.  The source recursion terminates because y strictly
increases to the guard at 14; the fuel argument makes that structural, and
every call below passes fuel 16, which the depth never reaches. -/
def getMaxFutureScore (mi : MapInfo) (st : PlayerStats) :
    Nat → Nat → Int → Memo → ℚ × Memo
  | 0, _, _, memo => (0, memo)
  | fuel + 1, y, x, memo =>
    match memoLookup memo (x, y) with
    | some v => (v, memo)
    | none =>
      match findNode (mi.nodes.getD y []) x with
      | none => (0, memo)
      | some node =>
        if 14 ≤ y then (0, memo)
        else if node.children = [] then (0, memo)
        else
          let next_floor := mi.nodes.getD (y + 1) []
          let r := node.children.foldl (fun (acc : ℚ × Memo) nx =>
            match findNode next_floor nx with
            | none => acc
            | some child =>
              let rec2 := getMaxFutureScore mi st fuel (y + 1) nx acc.2
              let s := score_node st child + rec2.1
              (if s > acc.1 then s else acc.1, rec2.2)) (-9999, memo)
          let max_s := if r.1 = -9999 then 0 else r.1
          (max_s, ((x, y), max_s) :: r.2)

/-- Embedding of MapEvaluator._get_path_score_dfs (src/map_evaluator.py
89-127): own score, plus the memoized max future score unless the node sits
at the boss boundary or has no children.  The depth argument of the source
is never read and is dropped. -/
def get_path_score_dfs (mi : MapInfo) (st : PlayerStats) (node : MapNode)
    (memo : Memo) : ℚ × Memo :=
  let score := score_node st node
  if 14 ≤ node.y then (score, memo)
  else if node.children = [] then (score, memo)
  else
    let r := getMaxFutureScore mi st 16 node.y node.x memo
    (score + r.1, r.2)

/-- The candidate next nodes of MapEvaluator.evaluate_path (src/
map_evaluator.py 29-62): all floor-0 nodes at the start of act, otherwise
every next-floor node matching a child x of the current node. -/
def nextNodes (mi : MapInfo) : List MapNode :=
  if mi.current_y = -1 then mi.nodes.getD 0 []
  else if mi.current_y < 14 then
    match findNode (mi.nodes.getD mi.current_y.toNat []) mi.current_x with
    | none => []
    | some cn =>
      let next_floor := mi.nodes.getD (mi.current_y.toNat + 1) []
      cn.children.flatMap (fun nx => nodesWithX next_floor nx)
  else []

/-- The strict-greater best tracking loop of evaluate_path (src/
map_evaluator.py 69-80), threading the memo through the per-candidate dfs
calls in order. -/
def evalFold (mi : MapInfo) (st : PlayerStats) :
    List MapNode → MapNode × ℚ → Memo → (MapNode × ℚ) × Memo
  | [], best, memo => (best, memo)
  | n :: rest, best, memo =>
    let r := get_path_score_dfs mi st n memo
    evalFold mi st rest (if r.1 > best.2 then (n, r.1) else best) r.2

/-- Embedding of MapEvaluator.evaluate_path (src/map_evaluator.py 21-87).
The incoming memo is the instance field self._memo, which the source never
clears between calls on the same instance; a fresh instance corresponds to
the empty memo.  The result none models the bare return 0 taken when there
are no candidates, which the call site unpacks as a tuple and which would
raise there. -/
def evaluate_path (mi : MapInfo) (st : PlayerStats) (memo : Memo) :
    Option (Int × ℚ) × Memo :=
  match nextNodes mi with
  | [] => (none, memo)
  | n0 :: _ =>
    let r := evalFold mi st (nextNodes mi) (n0, -9999) memo
    (some (r.1.1.x, r.1.2), r.2)

/-- A start-of-act map where the elite branch leads through rich rest rooms
and the rest branch through monsters: floor 0 has an elite at x=0 and a
rest at x=1; floor 1 has a rest under the elite and a monster under the
rest; floor 2 repeats that and ends (no children). -/
def c6Map : MapInfo :=
  ⟨[[⟨0, 0, ROOM_ELITE, [0]⟩, ⟨1, 0, ROOM_REST, [1]⟩],
    [⟨0, 1, ROOM_REST, [0]⟩, ⟨1, 1, ROOM_MONSTER, [1]⟩],
    [⟨0, 2, ROOM_REST, []⟩, ⟨1, 2, ROOM_MONSTER, []⟩]],
   0, -1⟩

/-- The panic-mode stats of the claim: hp ratio 0.25, gold 300. -/
def panicStats : PlayerStats := ⟨25, 100, 300⟩

theorem c6_cex_eval : (evaluate_path c6Map panicStats []).1 = some (0, 11) := by
  norm_num [evaluate_path, nextNodes, evalFold, get_path_score_dfs,
    getMaxFutureScore, score_node, memoLookup, findNode, nodesWithX, c6Map,
    panicStats, ROOM_ELITE, ROOM_REST, ROOM_SHOP, ROOM_MONSTER, ROOM_EVENT,
    ROOM_TREASURE, Prod.mk.injEq, -Prod.mk_zero_zero]

/-- C6 counterexample: at hp ratio 0.25 and gold 300, on a start-of-act map
whose floor-0 choice is elite (x=0) versus rest (x=1), the optimizer picks
the ELITE branch, because the elite leads through rest rooms (future 16)
while the rest leads through monsters: path scores 11 versus 4.  The claim
quantifies over every such topology, and this one refutes it. -/
theorem map_panic_counterexample :
    (c6Map.nodes.getD 0 []).map (fun n => (n.x, n.room_type)) =
      [(0, ROOM_ELITE), (1, ROOM_REST)] ∧
    panicStats.cur_hp / panicStats.max_hp = 1/4 ∧ panicStats.gold = 300 ∧
    (evaluate_path c6Map panicStats []).1 = some (0, 11) :=
  ⟨by norm_num [c6Map], by norm_num [panicStats], by norm_num [panicStats],
   c6_cex_eval⟩

/-- C6 amended: when the floor-0 elite and rest nodes have no children (so
the panic-mode node weights alone decide), the optimizer at hp ratio 0.25
and gold 300 selects the rest node, with score 8. -/
theorem map_panic_prefers_rest (mi : MapInfo) (st : PlayerStats)
    (x1 x2 : Int)
    (h0 : mi.nodes.getD 0 [] = [⟨x1, 0, ROOM_ELITE, []⟩, ⟨x2, 0, ROOM_REST, []⟩])
    (hy : mi.current_y = -1)
    (hhp : st.cur_hp / st.max_hp = 1/4)
    (hgold : st.gold = 300) :
    (evaluate_path mi st []).1 = some (x2, 8) := by
  simp only [evaluate_path, nextNodes, hy, if_true, h0, evalFold,
    get_path_score_dfs, score_node, hhp, hgold, ROOM_ELITE, ROOM_REST]
  norm_num

/-- Witness for the amended C6 on a concrete two-node start-of-act map. -/
theorem map_panic_prefers_rest_witness :
    (evaluate_path
      ⟨[[⟨0, 0, ROOM_ELITE, []⟩, ⟨1, 0, ROOM_REST, []⟩]], 0, -1⟩
      ⟨25, 100, 300⟩ []).1 = some (1, 8) :=
  map_panic_prefers_rest _ _ 0 1 (by norm_num) (by norm_num)
    (by norm_num) (by norm_num)

/-- A start-of-act map with two monster nodes on floor 0 whose children are
an elite (x=0) and a rest (x=1) on floor 1, both childless. -/
def c7Map : MapInfo :=
  ⟨[[⟨0, 0, ROOM_MONSTER, [0]⟩, ⟨1, 0, ROOM_MONSTER, [1]⟩],
    [⟨0, 1, ROOM_ELITE, []⟩, ⟨1, 1, ROOM_REST, []⟩]],
   0, -1⟩

/-- Full-health stats: hp ratio 1, gold 0. -/
def fullStats : PlayerStats := ⟨100, 100, 0⟩

/-- C7: the memo is an instance field that survives evaluate_path calls.
First call at full health caches future scores 5 (elite child) and 2 (rest
child) and picks x=0 with 4.5.  A second call on the same instance with
panic stats reuses the stale cache and returns (0, 3), while a fresh
evaluation with the same panic stats returns (1, 6): the stale cache flips
both the chosen branch and the score. -/
theorem map_memo_persists_across_calls :
    (evaluate_path c7Map fullStats []).1 = some (0, 9/2) ∧
    (evaluate_path c7Map panicStats
      (evaluate_path c7Map fullStats []).2).1 = some (0, 3) ∧
    (evaluate_path c7Map panicStats []).1 = some (1, 6) := by
  refine ⟨?_, ?_, ?_⟩ <;>
    norm_num [evaluate_path, nextNodes, evalFold, get_path_score_dfs,
      getMaxFutureScore, score_node, memoLookup, findNode, nodesWithX,
      c7Map, panicStats, fullStats, ROOM_ELITE, ROOM_REST, ROOM_SHOP,
      ROOM_MONSTER, ROOM_EVENT, ROOM_TREASURE, Prod.mk.injEq,
      -Prod.mk_zero_zero]

/-- One reward entry of gc.get_rewards (src/sts_env.py 357-378): its type
tag and, for card rewards, the offered card ids. -/
structure RewardRec where
  rtype : String
  cards : List ℚ
deriving DecidableEq

/-- The external engine interface consumed by StsEnv, over an abstract
engine-state type E.  Read accessors are total; mutators may reject a call,
modelled as Except (error = the Python exception the engine raises).  The
ambient randomness (random.choice of a target, random.randint arguments of
the recovery sweep) is modelled by the rand_choice function and the fixed
rnd values, so each api value fixes one outcome of the generator. -/
structure EngineAPI (E : Type) where
  screen_state : E → Int
  floor_num : E → Int
  gold : E → Int
  cur_hp : E → Int
  max_hp : E → Int
  outcome_victory : E → Bool
  hand : E → List CardRec
  get_observation_props : E → Option ObsProps
  play_card : E → Nat → Nat → Except Unit E
  end_turn : E → Except Unit E
  choose_map_node : E → Int → Except Unit E
  get_rewards : E → List RewardRec
  pick_reward_card : E → ℚ → Except Unit E
  claim_reward : E → Nat → Except Unit E
  regain_control : E → Except Unit E
  choose_campfire_option : E → Nat → Except Unit E
  choose_treasure_open : E → Except Unit E
  choose_event_option : E → Nat → Except Unit E
  choose_boss_relic : E → Nat → Except Unit E
  choose_card_option : E → Nat → Except Unit E
  choose_neow_option : E → Nat → Except Unit E
  cur_map_node_y : E → Int
  get_map_info : E → MapInfo
  rand_choice : List Nat → Nat
  rnd_neow : Nat
  rnd_event : Nat
  rnd_map : Nat
  rnd_reward : Nat
  rnd_boss : Nat

/-- The mutable per-episode state of StsEnv (reset at src/sts_env.py 64-83). -/
structure EnvState (E : Type) where
  gc : E
  obs_prev : List ℚ
  step_count : Nat
  floor_steps : Nat
  current_floor : Int
  last_floor : Int
  last_gold : Int
  stuck_counter : Nat
  last_state_val : Int

/-- The step budget self.max_steps (src/sts_env.py line 50). -/
def max_steps : Nat := 2000

/-- The info dict assembled by step: the error key (the Invalid Action
write overwrites an earlier Floor Timeout write), the victory flag, floor,
hp_percent, and the merged reward breakdown. -/
structure StepInfo where
  err : Option String
  victory : Bool
  floor : Int
  hp_percent : ℚ
  rinfo : List (String × ℚ)

/-- The (observation, reward, terminated, truncated, info) tuple returned
by step, along with the mutated environment state. -/
structure StepResult (E : Type) where
  env : EnvState E
  obs : List ℚ
  reward : ℚ
  terminated : Bool
  truncated : Bool
  info : StepInfo

/-- A try/except pass around one engine call: keep the old state on
rejection. -/
def tryCall {E : Type} (e : E) (r : Except Unit E) : E :=
  match r with
  | .ok g => g
  | .error _ => e

/-- A screen handler wrapped in try/except whose failure falls through to
the generic release-control fallback of _handle_non_combat (itself wrapped,
src/sts_env.py 431-437). -/
def orFallback {E : Type} (api : EngineAPI E) (e : E) (r : Except Unit E) : E :=
  match r with
  | .ok g => g
  | .error _ => tryCall e (api.regain_control e)

/-- Alive monster slots read from the observation vector, as
StsEnv._get_alive_monsters (src/sts_env.py 316-327). -/
def aliveMonsterIdx (v : List ℚ) : List Nat :=
  (List.range 5).filter (fun i => nth v (9 + i * 5 + 4) > 1/2)

/-- The uniformly random alive target of the battle card play
(src/sts_env.py 166-169): random.choice over the alive indices when any,
else index 0. -/
def targetOf {E : Type} (api : EngineAPI E) (obs : List ℚ) : Nat :=
  let alive := aliveMonsterIdx obs
  if alive ≠ [] then api.rand_choice alive else 0

/-- Embedding of StsEnv._force_unstuck (src/sts_env.py 291-314): a sweep of
randomized resolution calls, each in its own try/except, skipping the map
choice at the boss row.  The state parameter of the source is only used in
a commented-out print and is dropped. -/
def force_unstuck {E : Type} (api : EngineAPI E) (e : E) : E :=
  let e1 := tryCall e (api.choose_neow_option e api.rnd_neow)
  let e2 := tryCall e1 (api.choose_event_option e1 api.rnd_event)
  let e3 := tryCall e2 (api.choose_campfire_option e2 0)
  let e4 := if api.cur_map_node_y e3 < 15
            then tryCall e3 (api.choose_map_node e3 (api.rnd_map : Int))
            else e3
  let e5 := tryCall e4 (api.claim_reward e4 api.rnd_reward)
  tryCall e5 (api.regain_control e5)

/-- The fallback cascade of the map handler (src/sts_env.py 344-355): after
the recommended node and node 0 fail, try nodes 1..6 in order, stopping at
the first success. -/
def tryMapNodes {E : Type} (api : EngineAPI E) (e : E) : List Int → Option E
  | [] => none
  | i :: rest =>
    match api.choose_map_node e i with
    | .ok g => some g
    | .error _ => tryMapNodes api e rest

/-- Embedding of StsEnv._handle_non_combat (src/sts_env.py 329-443).  The
result is the engine state after the handler; Except.error is an engine
exception the handler does not catch and therefore propagates:
  - Map screen: a fresh MapEvaluator (empty memo) recommends a node; the
    choose_map_node chain is fully wrapped, ending in the generic fallback;
    when there are no candidates evaluate_path returns a bare 0 that the
    tuple unpacking at the call site turns into an uncaught TypeError.
  - Rewards screen: with no rewards the regain_control call is NOT wrapped;
    picking a card reward calls pick_reward_card UNwrapped (and, since the
    source never sets handled there, follows with the wrapped fallback);
    claim_reward is wrapped.
  - The remaining screens run their option call wrapped, falling through to
    the wrapped release-control fallback. -/
def handle_non_combat {E : Type} (api : EngineAPI E) (e : E) (st : Int) :
    Except Unit E :=
  if st = SCREEN_MAP then
    let mi := api.get_map_info e
    let stats : PlayerStats :=
      ⟨(api.cur_hp e : ℚ), (api.max_hp e : ℚ), (api.gold e : ℚ)⟩
    match (evaluate_path mi stats []).1 with
    | none => .error ()
    | some (best_x, _) =>
      match api.choose_map_node e best_x with
      | .ok g => .ok g
      | .error _ =>
        match api.choose_map_node e 0 with
        | .ok g => .ok g
        | .error _ =>
          match tryMapNodes api e [1, 2, 3, 4, 5, 6] with
          | some g => .ok g
          | none => .ok (tryCall e (api.regain_control e))
  else if st = SCREEN_REWARDS then
    let rewards := api.get_rewards e
    if rewards = [] then
      match api.regain_control e with
      | .ok g => .ok g
      | .error er => .error er
    else
      match List.find? (fun r => r.rtype = ("CARD") ∧ r.cards ≠ []) rewards with
      | some r =>
        match api.pick_reward_card e (r.cards.headD 0) with
        | .ok g => .ok (tryCall g (api.regain_control g))
        | .error er => .error er
      | none =>
        match api.claim_reward e 0 with
        | .ok g => .ok g
        | .error _ => .ok (tryCall e (api.regain_control e))
  else if st = SCREEN_INVALID then
    .ok (match api.choose_neow_option e 0 with
      | .ok g => g
      | .error _ =>
        match api.regain_control e with
        | .ok g => g
        | .error _ => tryCall e (api.regain_control e))
  else if st = SCREEN_REST then
    let choice : Nat :=
      if (api.cur_hp e : ℚ) / (api.max_hp e : ℚ) < 1/2 then 0 else 1
    .ok (match api.choose_campfire_option e choice with
      | .ok g => g
      | .error _ =>
        match api.choose_campfire_option e 0 with
        | .ok g => g
        | .error _ => tryCall e (api.regain_control e))
  else if st = SCREEN_TREASURE then
    .ok (orFallback api e (api.choose_treasure_open e))
  else if st = SCREEN_EVENT then
    .ok (orFallback api e (api.choose_event_option e 0))
  else if st = SCREEN_BOSS_RELIC then
    .ok (orFallback api e (api.choose_boss_relic e api.rnd_boss))
  else if st = SCREEN_CARD_SELECT then
    .ok (orFallback api e (api.choose_card_option e 0))
  else
    .ok (tryCall e (api.regain_control e))

/-- Embedding of the action dispatch block of StsEnv.step (src/sts_env.py
151-201): the engine state after the attempted action and the action_valid
flag.  Except.error is an exception this block does not catch: the bare
end_turn call (line 182) and whatever _handle_non_combat propagates.  The
battle play_card call is wrapped, so its rejection only invalidates the
action. -/
def dispatch {E : Type} (api : EngineAPI E) (gc : E) (obs_prev : List ℚ)
    (stuck : Nat) (st : Int) (action : Nat) : Except Unit (E × Bool) :=
  if st = SCREEN_BATTLE then
    if action ≤ 9 then
      let hand := api.hand gc
      if action < hand.length then
        let cost := ((hand.getD action ⟨none⟩).costForTurn).getD 99
        let current_energy := nth obs_prev 2
        if cost ≤ current_energy then
          match api.play_card gc action (targetOf api obs_prev) with
          | .ok g => .ok (g, true)
          | .error _ => .ok (gc, false)
        else .ok (gc, false)
      else .ok (gc, false)
    else if action = 10 then
      match api.end_turn gc with
      | .ok g => .ok (g, true)
      | .error er => .error er
    else .ok (gc, false)
  else
    if 11 ≤ action then
      if stuck > 5 then .ok (force_unstuck api gc, true)
      else
        match handle_non_combat api gc st with
        | .ok g => .ok (g, true)
        | .error er => .error er
    else .ok (gc, false)

/-- Embedding of StsEnv.step (src/sts_env.py 85-245): floor-change
detection, pre-action floor and checkpoint-gold bonuses, stuck counting,
floor timeout, action dispatch, invalid-action penalty or time cost plus
shaped reward with state re-encoding, terminal bonuses, truncation, and
the info dict.  Except.error is an uncaught engine exception escaping the
step call. -/
def step {E : Type} (api : EngineAPI E) (s : EnvState E) (action : Nat) :
    Except Unit (StepResult E) :=
  let step_count := s.step_count + 1
  let st := api.screen_state s.gc
  let current_floor_tr :=
    if api.floor_num s.gc ≠ s.current_floor then api.floor_num s.gc
    else s.current_floor
  let floor_steps :=
    if api.floor_num s.gc ≠ s.current_floor then 0 else s.floor_steps + 1
  let current_floor := api.floor_num s.gc
  let r1 : ℚ :=
    if current_floor > s.last_floor then
      1 + (if current_floor = 16 then 20 else 0)
        + (if s.last_floor = 16 ∧ current_floor = 17 then 100 else 0)
    else 0
  let current_gold := api.gold s.gc
  let gold_gain := current_gold - s.last_gold
  let r2 : ℚ :=
    if gold_gain ≥ 30 ∧ current_floor ≠ 16 ∧ current_floor ≠ 17 then 5 else 0
  let stuck_counter :=
    if st = s.last_state_val then s.stuck_counter + 1 else 0
  let last_state_val := if st = s.last_state_val then s.last_state_val else st
  let timeout := floor_steps > 500
  let r3 : ℚ := if timeout then -5 else 0
  let err1 : Option String := if timeout then some ("Floor Timeout") else none
  match dispatch api s.gc s.obs_prev stuck_counter st action with
  | .error er => .error er
  | .ok (gc2, action_valid) =>
    let obs_curr :=
      if action_valid then get_observation (api.get_observation_props gc2)
      else s.obs_prev
    let rr :=
      if action_valid then calculate_rational_reward s.obs_prev obs_curr
      else (0, [])
    let r4 : ℚ := if action_valid then -(1/500) + rr.1 else -1
    let err2 := if action_valid then err1 else some ("Invalid Action")
    let vict := api.outcome_victory gc2
    let r5 : ℚ := if vict then 500 else 0
    let dead := api.cur_hp gc2 ≤ 0
    let r6 : ℚ := if dead then -10 else 0
    .ok { env := { gc := gc2, obs_prev := obs_curr, step_count := step_count,
                   floor_steps := floor_steps,
                   current_floor := current_floor_tr,
                   last_floor := current_floor, last_gold := current_gold,
                   stuck_counter := stuck_counter,
                   last_state_val := last_state_val },
          obs := obs_curr, reward := r1 + r2 + r3 + r4 + r5 + r6,
          terminated := vict ∨ dead,
          truncated := timeout ∨ step_count ≥ max_steps,
          info := { err := err2, victory := vict,
                    floor := api.floor_num gc2,
                    hp_percent := if api.max_hp gc2 > 0
                      then (api.cur_hp gc2 : ℚ) / (api.max_hp gc2 : ℚ)
                      else 0,
                    rinfo := rr.2 } }

/-- The observation of a step outcome, none when the step raised. -/
def resultObs {E : Type} : Except Unit (StepResult E) → Option (List ℚ)
  | .ok r => some r.obs
  | .error _ => none

/-- The reward of a step outcome, none when the step raised. -/
def resultReward {E : Type} : Except Unit (StepResult E) → Option ℚ
  | .ok r => some r.reward
  | .error _ => none

/-- The info error key of a step outcome, none when the step raised. -/
def resultErr {E : Type} : Except Unit (StepResult E) → Option (Option String)
  | .ok r => some r.info.err
  | .error _ => none

/-- A concrete engine over the unit state: Battle screen, empty hand, and
every mutator rejecting its call. -/
def api1 : EngineAPI Unit :=
  { screen_state := fun _ => 9, floor_num := fun _ => 0, gold := fun _ => 0,
    cur_hp := fun _ => 50, max_hp := fun _ => 80,
    outcome_victory := fun _ => false,
    hand := fun _ => [], get_observation_props := fun _ => none,
    play_card := fun _ _ _ => .error (), end_turn := fun _ => .error (),
    choose_map_node := fun _ _ => .error (), get_rewards := fun _ => [],
    pick_reward_card := fun _ _ => .error (),
    claim_reward := fun _ _ => .error (),
    regain_control := fun _ => .error (),
    choose_campfire_option := fun _ _ => .error (),
    choose_treasure_open := fun _ => .error (),
    choose_event_option := fun _ _ => .error (),
    choose_boss_relic := fun _ _ => .error (),
    choose_card_option := fun _ _ => .error (),
    choose_neow_option := fun _ _ => .error (),
    cur_map_node_y := fun _ => 0, get_map_info := fun _ => ⟨[], 0, 0⟩,
    rand_choice := fun _ => 0,
    rnd_neow := 0, rnd_event := 0, rnd_map := 0, rnd_reward := 0,
    rnd_boss := 0 }

/-- api1 with one 1-cost card in hand (play_card still rejects). -/
def api2 : EngineAPI Unit := { api1 with hand := fun _ => [⟨some 1⟩] }

/-- A fresh episode state over the unit engine whose previous observation
is the zero vector. -/
def s1 : EnvState Unit :=
  { gc := (), obs_prev := List.replicate 72 0, step_count := 0,
    floor_steps := 0, current_floor := 0, last_floor := 0, last_gold := 0,
    stuck_counter := 0, last_state_val := 9 }

/-- s1 with energy 3 at observation index 2. -/
def s2 : EnvState Unit :=
  { s1 with obs_prev := 0 :: 0 :: 3 :: List.replicate 69 0 }

/-- C1: the step call can raise.  In a Battle screen, action 10 calls
gc.end_turn() outside any try/except, so an engine rejection of end_turn
propagates out of step (first conjunct), while the same engine rejecting a
card play is absorbed as an invalid action with the fixed penalty and the
observation unchanged (remaining conjuncts): the liveness guarantee fails
on the end-turn path. -/
theorem step_propagates_end_turn_rejection :
    step api1 s1 10 = .error () ∧
    resultReward (step api2 s2 0) = some (-1) ∧
    resultObs (step api2 s2 0) = some (0 :: 0 :: 3 :: List.replicate 69 0) ∧
    resultErr (step api2 s2 0) = some (some ("Invalid Action")) := by
  refine ⟨?_, ?_, ?_, ?_⟩ <;>
    norm_num [step, dispatch, api1, api2, s1, s2, SCREEN_BATTLE, targetOf,
      aliveMonsterIdx, nth, List.getD, List.replicate, List.range_succ,
      resultReward, resultObs, resultErr, max_steps]

/-- The four rejection shapes of the claim (wrong screen, empty hand slot,
insufficient energy, engine rejection of the play) plus out-of-range battle
actions: exactly the action_valid = False outcomes of the dispatch block. -/
def invalidActionCase {E : Type} (api : EngineAPI E) (g : E) (obs : List ℚ)
    (a : Nat) : Prop :=
  (api.screen_state g ≠ SCREEN_BATTLE ∧ a < 11) ∨
  (api.screen_state g = SCREEN_BATTLE ∧ a ≤ 9 ∧ (api.hand g).length ≤ a) ∨
  (api.screen_state g = SCREEN_BATTLE ∧ a ≤ 9 ∧ a < (api.hand g).length ∧
    ¬(((api.hand g).getD a ⟨none⟩).costForTurn.getD 99 ≤ nth obs 2)) ∨
  (api.screen_state g = SCREEN_BATTLE ∧ a ≤ 9 ∧ a < (api.hand g).length ∧
    ((api.hand g).getD a ⟨none⟩).costForTurn.getD 99 ≤ nth obs 2 ∧
    api.play_card g a (targetOf api obs) = .error ()) ∨
  (api.screen_state g = SCREEN_BATTLE ∧ 11 ≤ a)

theorem dispatch_invalid {E : Type} (api : EngineAPI E) (g : E)
    (obs : List ℚ) (a : Nat) (stuck : Nat)
    (h : invalidActionCase api g obs a) :
    dispatch api g obs stuck (api.screen_state g) a = .ok (g, false) := by
  rcases h with ⟨hst, ha⟩ | ⟨hst, ha, hlen⟩ | ⟨hst, ha, hlen, hcost⟩ |
    ⟨hst, ha, hlen, hcost, hplay⟩ | ⟨hst, ha⟩
  · have h11 : ¬ (11 ≤ a) := by omega
    simp [dispatch, hst, h11]
  · have hlt : ¬ (a < (api.hand g).length) := by omega
    simp [dispatch, hst, ha, hlt]
  · have hc2 : ¬ ((api.hand g)[a].costForTurn.getD 99 ≤ nth obs 2) := by
      simpa [List.getD_eq_getElem?_getD, List.getElem?_eq_getElem hlen]
        using hcost
    simp [dispatch, hst, ha, hlen, hc2]
  · have hc2 : (api.hand g)[a].costForTurn.getD 99 ≤ nth obs 2 := by
      simpa [List.getD_eq_getElem?_getD, List.getElem?_eq_getElem hlen]
        using hcost
    simp [dispatch, hst, ha, hlen, hc2, hplay]
  · have h9 : ¬ (a ≤ 9) := by omega
    have h10 : a ≠ 10 := by omega
    simp [dispatch, hst, h9, h10]

/-- C3 amended: an invalid action leaves the observation unchanged and is
penalized with exactly -1.0, provided no other reward term co-fires in the
same step: the floor did not change since the last step, the checkpoint
gold bonus does not trigger, the per-floor budget is not exceeded, and the
step does not terminate by victory or death.  (The source adds those terms
to the same returned reward, so without these hypotheses the total can
differ from -1.0.) -/
theorem invalid_action_fixed_penalty {E : Type} (api : EngineAPI E)
    (s : EnvState E) (a : Nat)
    (hinv : invalidActionCase api s.gc s.obs_prev a)
    (hfl : api.floor_num s.gc = s.last_floor)
    (hfc : api.floor_num s.gc = s.current_floor)
    (hfs : s.floor_steps + 1 ≤ 500)
    (hgold : api.gold s.gc - s.last_gold < 30)
    (hvic : api.outcome_victory s.gc = false)
    (hhp : 0 < api.cur_hp s.gc) :
    resultObs (step api s a) = some s.obs_prev ∧
    resultReward (step api s a) = some (-1) ∧
    resultErr (step api s a) = some (some ("Invalid Action")) := by
  have hd := dispatch_invalid api s.gc s.obs_prev a
    (if api.screen_state s.gc = s.last_state_val then s.stuck_counter + 1
     else 0) hinv
  have h1 : ¬ (api.floor_num s.gc > s.last_floor) := by
    rw [hfl]; exact lt_irrefl _
  have h2 : ¬ (api.gold s.gc - s.last_gold ≥ 30) := by omega
  have h3 : ¬ (api.floor_num s.gc ≠ s.current_floor) := by simp [hfc]
  have h4 : ¬ (s.floor_steps + 1 > 500) := by omega
  have h5 : ¬ (api.cur_hp s.gc ≤ 0) := by omega
  simp [step, hd, h1, h2, h3, h4, h5, hvic, resultObs, resultReward,
    resultErr]

/-- api1 on a non-Battle screen (Rewards). -/
def apiW : EngineAPI Unit := { api1 with screen_state := fun _ => 2 }

/-- Witness for the amended C3: action 0 on the Rewards screen of a fresh
episode is invalid and yields exactly the -1 penalty with the observation
unchanged. -/
theorem invalid_action_fixed_penalty_witness :
    resultObs (step apiW s1 0) = some s1.obs_prev ∧
    resultReward (step apiW s1 0) = some (-1) ∧
    resultErr (step apiW s1 0) = some (some ("Invalid Action")) :=
  invalid_action_fixed_penalty apiW s1 0
    (Or.inl ⟨by norm_num [apiW, api1, s1, SCREEN_BATTLE], by norm_num⟩)
    (by norm_num [apiW, api1, s1]) (by norm_num [apiW, api1, s1])
    (by norm_num [s1]) (by norm_num [apiW, api1, s1])
    (by norm_num [apiW, api1, s1]) (by norm_num [apiW, api1, s1])

/-- api1 on a non-Battle screen with the engine one floor higher than the
episode state last saw. -/
def apiC : EngineAPI Unit :=
  { api1 with screen_state := fun _ => 2, floor_num := fun _ => 1 }

/-- sC: the floor tracker already caught up (current_floor 1) but the
pre-action bonus tracker has not (last_floor 0). -/
def sC : EnvState Unit := { s1 with current_floor := 1 }

/-- C3 counterexample: an invalid action in a step where the floor rose
since the previous step returns reward 0 (= +1.0 floor bonus - 1.0
penalty), not the fixed -1.0 of the claim, though the observation is still
returned unchanged and the error key is set. -/
theorem invalid_action_penalty_counterexample :
    resultReward (step apiC sC 0) = some 0 ∧
    resultObs (step apiC sC 0) = some (List.replicate 72 0) ∧
    resultErr (step apiC sC 0) = some (some ("Invalid Action")) := by
  refine ⟨?_, ?_, ?_⟩ <;>
    norm_num [step, dispatch, apiC, api1, sC, s1, SCREEN_BATTLE,
      resultReward, resultObs, resultErr, max_steps]
